import Mathlib

/-!
Verification development for the Claude relay service (`src/services/claudeRelayService.js`,
`src/services/tokenCountService.js`).  JavaScript strings are modelled as Lean `String`
(character-level; UTF-16 code-unit subtleties are out of scope), JavaScript objects as
Lean structures with `Option` fields for possibly-absent properties, and JavaScript
`null` array elements as dedicated constructors.  Upstream network calls are modelled
as oracle parameters (`Option` results).
-/

namespace ClaudeRelay

/-! ## JavaScript string primitives -/

/-- JS truthiness of a possibly-absent string property: present and non-empty. -/
def strTruthy : Option String → Bool
  | some s => !(s == "")
  | none => false

/-- JS `String.prototype.startsWith`, via the character list. -/
def jsStartsWith (s p : String) : Bool :=
  p.data.isPrefixOf s.data

/-- JS `String.prototype.slice(n)` for a non-negative `n`, via the character list. -/
def jsDrop (s : String) (n : Nat) : String :=
  String.mk (s.data.drop n)

/-- Whitespace test used by `trim`. -/
def isWs (c : Char) : Bool :=
  c == ' ' || c == '\t' || c == '\n' || c == '\r'

/-- JS `String.prototype.trim`: drop leading and trailing whitespace. -/
def jsTrim (s : String) : String :=
  String.mk (((s.data.dropWhile isWs).reverse.dropWhile isWs).reverse)

/-- JS `String.prototype.toLowerCase` (ASCII-level model). -/
def jsToLower (s : String) : String :=
  String.mk (s.data.map Char.toLower)

/-- JS `String.prototype.includes`: substring containment. -/
def jsIncludes (s pat : String) : Bool :=
  s.data.tails.any (fun t => pat.data.isPrefixOf t)

/-- JS `a || d` for a possibly-absent string `a` with default `d`
(the empty string is falsy). -/
def jsOrStr (o : Option String) (d : String) : String :=
  match o with
  | some s => if s == "" then d else s
  | none => d

/-- The Claude Code system prompt literal (`this.claudeCodeSystemPrompt`,
claudeRelayService.js line 20). -/
def claudeCodeSystemPrompt : String :=
  "You are Claude Code, Anthropic" ++ String.singleton (Char.ofNat 39) ++
    "s official CLI for Claude."

/-- The rate-limit detection substring (claudeRelayService.js lines 186, 908). -/
def rateLimitPattern : String :=
  "exceed your account" ++ String.singleton (Char.ofNat 39) ++ "s rate limit"

/-! ## Request body data model -/

/-- A `cache_control` object: `{type?, ttl?}`. -/
structure CacheControl where
  ctype : Option String
  ttl : Option String
deriving DecidableEq, Repr

/-- An element of a `system` array or of a `messages[i].content` array.
`nullItem` models a JS `null`/`undefined` element; `item` models an object
with possibly-absent `type`, `text` and `cache_control` properties. -/
inductive ContentItem where
  | nullItem
  | item (itype : Option String) (text : Option String) (cache_control : Option CacheControl)
deriving DecidableEq, Repr

/-- The `system` field of a request body: absent, a string, an array, or some
other JS value (with its truthiness). -/
inductive SystemField where
  | absent
  | str (s : String)
  | arr (items : List ContentItem)
  | other (truthy : Bool)
deriving DecidableEq, Repr

/-- The `content` field of a message: absent, a string, an array, or some other value. -/
inductive MsgContent where
  | absent
  | str (s : String)
  | arr (items : List ContentItem)
  | other
deriving DecidableEq, Repr

/-- A `messages` array element; `nullMsg` models a JS `null` element. -/
inductive JsMessage where
  | nullMsg
  | msg (role : Option String) (content : MsgContent)
deriving DecidableEq, Repr

/-- A request body `{model?, max_tokens?, system?, messages?}` (the fields the
relay core reads).  `messages = none` covers both an absent and a non-array value. -/
structure RequestBody where
  model : Option String
  max_tokens : Option Nat
  system : SystemField
  messages : Option (List JsMessage)
deriving DecidableEq, Repr

/-! ## Request shaper (`_processRequestBody` and helpers) -/

/-- Embeds `_hasClaudeCodeSystemPrompt` (lines 37-56): the `system` array is non-empty and its
first element is a text block whose (truthy) text equals the Claude Code prompt. -/
def hasClaudeCodeSystemPrompt (body : RequestBody) : Bool :=
  match body.system with
  | .str _ => false
  | .arr items =>
    match items with
    | [] => false
    | .nullItem :: _ => false
    | .item ty tx _ :: _ =>
      ty == some "text" && strTruthy tx && tx == some claudeCodeSystemPrompt
  | _ => false

/-- Embeds `isRealClaudeCodeRequest` (lines 24-34).  The user-agent regex test
`/claude-cli\d+.\d+.\d+/` on the client headers is modelled by the boolean
`uaMatches`. -/
def isRealClaudeCodeRequest (uaMatches : Bool) (body : RequestBody) : Bool :=
  uaMatches && hasClaudeCodeSystemPrompt body

/-- The Claude Code prompt block inserted by the shaper (lines 253-259). -/
def ccPromptItem : ContentItem :=
  .item (some "text") (some claudeCodeSystemPrompt) (some ⟨some "ephemeral", none⟩)

/-- Embeds `_validateAndLimitMaxTokens` (lines 336-376).  The pricing-file lookup
(including the `max_tokens || max_output_tokens` collapse; a missing file or
entry yields `none`) is the `pricing` parameter. -/
def validateAndLimitMaxTokens (pricing : String → Option Nat) (body : RequestBody) :
    RequestBody :=
  match body.max_tokens with
  | none => body
  | some mt =>
    if mt == 0 then body
    else
      match pricing (jsOrStr body.model "claude-sonnet-4-20250514") with
      | none => body
      | some maxLimit =>
        if maxLimit == 0 then body
        else if maxLimit < mt then { body with max_tokens := some maxLimit }
        else body

/-- Per-item `ttl` scrub of `_stripTtlFromCacheControl` (lines 382-393): delete a
truthy `ttl` from a present `cache_control`. -/
def scrubItem : ContentItem → ContentItem
  | .nullItem => .nullItem
  | .item ty tx cc =>
    match cc with
    | none => .item ty tx none
    | some c => if strTruthy c.ttl then .item ty tx (some { c with ttl := none })
                else .item ty tx (some c)

/-- Scrub one message: only array-valued `content` is processed. -/
def scrubMessage : JsMessage → JsMessage
  | .nullMsg => .nullMsg
  | .msg role content =>
    match content with
    | .arr items => .msg role (.arr (items.map scrubItem))
    | c => .msg role c

/-- Embeds `_stripTtlFromCacheControl` (lines 379-406): scrub the `system` array items and
every message content array (field-wise final values; only array-valued fields are
processed). -/
def stripTtlFromCacheControl (body : RequestBody) : RequestBody :=
  { body with
    system :=
      match body.system with
      | .arr items => .arr (items.map scrubItem)
      | s => s,
    messages :=
      match body.messages with
      | some msgs => some (msgs.map scrubMessage)
      | none => none }

/-- First-element check of the array branch (lines 276-279): type is `text` and text
equals the Claude Code prompt (no truthiness test on the text here). -/
def isFirstItemClaudeCode : List ContentItem → Bool
  | .item ty tx _ :: _ => ty == some "text" && tx == some claudeCodeSystemPrompt
  | _ => false

/-- The filter predicate of line 284-286: an item that is a Claude-Code text block. -/
def itemIsClaudeCodeText : ContentItem → Bool
  | .item ty tx _ => ty == some "text" && tx == some claudeCodeSystemPrompt
  | .nullItem => false

/-- System-prompt normalization (lines 248-298 of `_processRequestBody`). -/
def normalizeSystemPrompt (uaMatches : Bool) (body : RequestBody) : RequestBody :=
  if isRealClaudeCodeRequest uaMatches body then body
  else
    match body.system with
    | .str s =>
      if s == "" then { body with system := .arr [ccPromptItem] }
      else if jsTrim s == claudeCodeSystemPrompt then
        { body with system := .arr [ccPromptItem] }
      else
        { body with system := .arr [ccPromptItem, .item (some "text") (some s) none] }
    | .arr items =>
      if isFirstItemClaudeCode items then body
      else
        let filtered := items.filter (fun it => !(itemIsClaudeCodeText it))
        { body with system := .arr (ccPromptItem :: filtered) }
    | .absent => { body with system := .arr [ccPromptItem] }
    | .other _ => { body with system := .arr [ccPromptItem] }

/-- Line 310 predicate: an existing entry whose (truthy) text equals the operator prompt. -/
def itemTextEquals (p : String) : ContentItem → Bool
  | .item _ tx _ => strTruthy tx && tx == some p
  | .nullItem => false

/-- Line 323 predicate: an entry with truthy text whose trim is non-empty. -/
def itemHasValidText : ContentItem → Bool
  | .item _ tx _ =>
    match tx with
    | some t => !(t == "") && !(jsTrim t == "")
    | none => false
  | .nullItem => false

/-- Operator system-prompt block (lines 300-330 of `_processRequestBody`): append the
configured prompt when non-blank and not already present; otherwise delete a `system`
array holding no non-whitespace text. -/
def appendOperatorPrompt (opPrompt : String) (body : RequestBody) : RequestBody :=
  if !(opPrompt == "") && !(jsTrim opPrompt == "") then
    match body.system with
    | .arr items =>
      if items.any (itemTextEquals opPrompt) then body
      else { body with system := .arr (items ++ [.item (some "text") (some opPrompt) none]) }
    | _ => { body with system := .arr [.item (some "text") (some opPrompt) none] }
  else
    match body.system with
    | .arr items =>
      if items.any itemHasValidText then body
      else { body with system := .absent }
    | _ => body

/-- Embeds `_processRequestBody` (lines 236-333) on a non-null body: deep copy, max_tokens
clamp, ttl scrub, system-prompt normalization, operator prompt. -/
def processRequestBodyCore (pricing : String → Option Nat) (opPrompt : String)
    (uaMatches : Bool) (body : RequestBody) : RequestBody :=
  appendOperatorPrompt opPrompt
    (normalizeSystemPrompt uaMatches
      (stripTtlFromCacheControl
        (validateAndLimitMaxTokens pricing body)))

/-- Embeds `_processRequestBody` including the null-body guard of line 237. -/
def processRequestBody (pricing : String → Option Nat) (opPrompt : String)
    (uaMatches : Bool) : Option RequestBody → Option RequestBody
  | none => none
  | some b => some (processRequestBodyCore pricing opPrompt uaMatches b)

/-! ## Token counter (`tokenCountService.js`) -/

/-- Character count contributed by one content item in `_estimateTokenCount`
(lines 195-199): accessing `.type` on a `null` element throws. -/
def estimateItemChars : ContentItem → Except Unit Nat
  | .nullItem => .error ()
  | .item ty tx _ =>
    if ty == some "text" && strTruthy tx then .ok (tx.getD "").length else .ok 0

/-- Fold `estimateItemChars` over an item list, propagating the thrown exception. -/
def estimateItemsChars : List ContentItem → Except Unit Nat
  | [] => .ok 0
  | it :: rest =>
    match estimateItemChars it with
    | .error e => .error e
    | .ok c =>
      match estimateItemsChars rest with
      | .error e => .error e
      | .ok r => .ok (c + r)

/-- Character count of one message (lines 190-202): accessing `.content` on a `null`
message throws; string content counts its length; array content sums its text items. -/
def estimateMessageChars : JsMessage → Except Unit Nat
  | .nullMsg => .error ()
  | .msg _ content =>
    match content with
    | .absent => .ok 0
    | .str s => .ok s.length
    | .arr items => estimateItemsChars items
    | .other => .ok 0

/-- Fold `estimateMessageChars` over a message list. -/
def estimateMessagesChars : List JsMessage → Except Unit Nat
  | [] => .ok 0
  | m :: rest =>
    match estimateMessageChars m with
    | .error e => .error e
    | .ok c =>
      match estimateMessagesChars rest with
      | .error e => .error e
      | .ok r => .ok (c + r)

/-- Character count of the `system` field (lines 206-216). -/
def estimateSystemChars : SystemField → Except Unit Nat
  | .absent => .ok 0
  | .str s => .ok s.length
  | .arr items => estimateItemsChars items
  | .other _ => .ok 0

/-- The body of the `try` block of `_estimateTokenCount` (lines 185-227):
total characters, then `Math.ceil(totalChars / 3.5)`.  For a natural `c`,
`c / 3.5 = 2c / 7`, so the ceiling is `(2c + 6) / 7` in natural division. -/
def estimateInner (body : RequestBody) : Except Unit Nat :=
  match (match body.messages with
         | some msgs => estimateMessagesChars msgs
         | none => Except.ok 0) with
  | .error e => .error e
  | .ok m =>
    match estimateSystemChars body.system with
    | .error e => .error e
    | .ok s => .ok ((2 * (m + s) + 6) / 7)

/-- Embeds `_estimateTokenCount` (lines 184-233): the catch-all returns 500. -/
def estimateTokenCount (body : RequestBody) : Nat :=
  match estimateInner body with
  | .ok n => n
  | .error _ => 500

/-- Embeds `countInputTokens` (lines 21-57).  `upstream` is the oracle for the
count-tokens endpoint: `some n` is a successful call whose response carried
`input_tokens = n` (after the `|| 0` default); `none` is any failure
(network error, non-200 status, parse failure), which falls back to the
character estimate.  The function is total: it never throws. -/
def countInputTokens (upstream : Option Nat) (body : RequestBody) : Nat :=
  match upstream with
  | some n => n
  | none => estimateTokenCount body

/-! ## Relay orchestration gates (`relayRequest`, `relayStreamRequestWithUsageCapture`) -/

/-- The API-key record fields the relay reads. -/
structure ApiKeyData where
  keyType : String
  enableModelRestriction : Bool
  restrictedModels : List String
deriving DecidableEq, Repr

/-- The model-restriction guard (lines 72-89 / 627-646): restriction enabled, a
non-empty restricted list, a truthy requested model that is in the list. -/
def modelRestrictionDenies (key : ApiKeyData) (body : RequestBody) : Bool :=
  key.enableModelRestriction && !(key.restrictedModels == []) &&
    (match body.model with
     | some m => !(m == "") && key.restrictedModels.contains m
     | none => false)

/-- Outcome of the pre-dispatch stages of a relayed request.  `dispatched` means
the upstream `/v1/messages` call is made with the given shaped body. -/
inductive RelayOutcome where
  | forbidden
  | tokenFloorReject (currentTokens : Nat)
  | dispatched (processed : RequestBody)
deriving DecidableEq, Repr

/-- Pre-dispatch control flow of `relayRequest` (lines 59-170): model restriction
(403), body shaping, and — for `aws`/`databricks` keys — the 250-token floor
(429, rethrown through the catch of lines 127-139 because `countInputTokens`
never throws). -/
def relayRequestOutcome (pricing : String → Option Nat) (opPrompt : String)
    (key : ApiKeyData) (upstream : Option Nat) (uaMatches : Bool)
    (body : RequestBody) : RelayOutcome :=
  if modelRestrictionDenies key body then .forbidden
  else
    let processed := processRequestBodyCore pricing opPrompt uaMatches body
    if key.keyType == "aws" || key.keyType == "databricks" then
      let n := countInputTokens upstream processed
      if n < 250 then .tokenFloorReject n else .dispatched processed
    else .dispatched processed

/-- Pre-dispatch control flow of `relayStreamRequestWithUsageCapture`
(lines 616-709): the same guards; the 429 is written onto the response stream
(lines 672-690) instead of thrown. -/
def relayStreamOutcome (pricing : String → Option Nat) (opPrompt : String)
    (key : ApiKeyData) (upstream : Option Nat) (uaMatches : Bool)
    (body : RequestBody) : RelayOutcome :=
  if modelRestrictionDenies key body then .forbidden
  else
    let processed := processRequestBodyCore pricing opPrompt uaMatches body
    if key.keyType == "aws" || key.keyType == "databricks" then
      let n := countInputTokens upstream processed
      if n < 250 then .tokenFloorReject n else .dispatched processed
    else .dispatched processed

/-! ## Response data model and response shapers -/

/-- A `usage` object with its four possibly-absent counters. -/
structure Usage where
  input_tokens : Option Nat
  cache_creation_input_tokens : Option Nat
  cache_read_input_tokens : Option Nat
  output_tokens : Option Nat
deriving DecidableEq, Repr

/-- A response `content[]` element (the fields `_modifyResponseForBedrock` reads;
the object spread preserves the rest, modelled by the record update). -/
structure RContentItem where
  rtype : Option String
  rid : Option String
  rtext : Option String
deriving DecidableEq, Repr

/-- A nested `message` object (SSE `message_start` carries one). -/
structure MessageObj where
  mid : Option String
  musage : Option Usage
  mmodel : Option String
deriving DecidableEq, Repr

/-- A parsed response (or SSE data event) object: the fields the response
shapers read. -/
structure Response where
  id : Option String
  message : Option MessageObj
  content : Option (List RContentItem)
  content_block : Option RContentItem
  usage : Option Usage
deriving DecidableEq, Repr

/-- The `msg_` → `msg_bdrk_` id rewrite (lines 1329-1334): `replace` of the first
occurrence, guarded by `startsWith`, rewrites the prefix. -/
def bedrockRewriteMsgId (id : Option String) : Option String :=
  match id with
  | some i =>
    if strTruthy (some i) then
      if jsStartsWith i "msg_" then some ("msg_bdrk_" ++ jsDrop i 4) else some i
    else some i
  | none => none

/-- The per-item `toolu_` → `toolu_bdrk_` rewrite of the content map (lines 1344-1357). -/
def bedrockContentRewrite (it : RContentItem) : RContentItem :=
  if it.rtype == some "tool_use" && strTruthy it.rid then
    match it.rid with
    | some i =>
      if jsStartsWith i "toolu_" then { it with rid := some ("toolu_bdrk_" ++ jsDrop i 6) }
      else it
    | none => it
  else it

/-- The usage rewrite of `_modifyResponseForBedrock` (lines 1370-1400), keyed by
`keyType`; absent counters read as 0 via `|| 0`. -/
def bedrockUsageRewrite (keyType : String) (u : Usage) : Usage :=
  let origInput := u.input_tokens.getD 0
  let origCacheRead := u.cache_read_input_tokens.getD 0
  let origCacheCreation := u.cache_creation_input_tokens.getD 0
  if keyType == "aws" then
    { u with cache_creation_input_tokens := some origCacheCreation,
             cache_read_input_tokens := some origCacheRead,
             input_tokens := some (if origInput > 14 then origInput - 14 else origInput) }
  else if keyType == "databricks" then
    let total := origInput + origCacheRead + origCacheCreation
    { u with cache_creation_input_tokens := some 0,
             cache_read_input_tokens := some 0,
             input_tokens := some (if total > 14 then total - 14 else total) }
  else
    { u with input_tokens := some (if origInput > 14 then origInput - 14 else origInput) }

/-- Embeds `_modifyResponseForBedrock` (lines 1321-1435) on a parsed object, written
field-wise: each field of the result is the final value the imperative code
leaves in it (id rewrite lines 1329-1334; `message.id` lines 1337-1341;
content map lines 1344-1357; `content_block` lines 1360-1368; usage
lines 1371-1400; `message.usage` lines 1403-1432). -/
def modifyResponseForBedrock (keyType : String) (data : Response) : Response :=
  { id := bedrockRewriteMsgId data.id,
    message :=
      match data.message with
      | some m =>
        some { m with
                 mid := bedrockRewriteMsgId m.mid,
                 musage :=
                   match m.musage with
                   | some mu => some (bedrockUsageRewrite keyType mu)
                   | none => none }
      | none => none,
    content :=
      match data.content with
      | some items => some (items.map bedrockContentRewrite)
      | none => none,
    content_block :=
      match data.content_block with
      | some cb =>
        if cb.rtype == some "tool_use" && strTruthy cb.rid then
          some (bedrockContentRewrite cb)
        else some cb
      | none => none,
    usage :=
      match data.usage with
      | some u => some (bedrockUsageRewrite keyType u)
      | none => none }

/-- The usage rewrite of `_modifyResponseForClaudeCode` (lines 1445-1461):
subtract 14 from `input_tokens` only when it exceeds 14. -/
def claudeCodeUsageRewrite (u : Usage) : Usage :=
  let origInput := u.input_tokens.getD 0
  { u with input_tokens := some (if origInput > 14 then origInput - 14 else origInput) }

/-- Embeds `_modifyResponseForClaudeCode` (lines 1438-1464), used for both the `cc` and
`anthropic` personas; written field-wise (usage lines 1446-1452, nested
`message.usage` lines 1455-1461, everything else untouched). -/
def modifyResponseForClaudeCode (data : Response) : Response :=
  { data with
    usage :=
      match data.usage with
      | some u => some (claudeCodeUsageRewrite u)
      | none => none,
    message :=
      match data.message with
      | some m =>
        some { m with
                 musage :=
                   match m.musage with
                   | some mu => some (claudeCodeUsageRewrite mu)
                   | none => none }
      | none => none }

/-! ## SSE chunk shapers (`_processStreamDataForBedrock`, `_processStreamDataForClaudeCode`) -/

/-- JS `s.split(0x0A as Char)` on the character list: `"".split` gives `[""]`. -/
def splitNlChars : List Char → List (List Char)
  | [] => [[]]
  | c :: rest =>
    if c == '\n' then [] :: splitNlChars rest
    else
      match splitNlChars rest with
      | [] => [[c]]
      | l :: ls => (c :: l) :: ls

/-- JS `String.prototype.split` on a newline. -/
def jsSplitLines (s : String) : List String :=
  (splitNlChars s.data).map String.mk

/-- Character-level join with a newline separator. -/
def joinNlChars : List (List Char) → List Char
  | [] => []
  | [l] => l
  | l :: ls => l ++ '\n' :: joinNlChars ls

/-- JS `Array.prototype.join` with a newline separator. -/
def jsJoinLines (lines : List String) : String :=
  String.mk (joinNlChars (lines.map String.data))

/-- One line of the SSE shaper (the map body of lines 1608-1625/1642-1659),
generic in the persona transform.  `parse` and `stringify` stand for
`JSON.parse` (`none` = throws) and `JSON.stringify`. -/
def processStreamLine (parse : String → Option Response) (stringify : Response → String)
    (transform : Response → Response) (line : String) : String :=
  if jsStartsWith line "data: " = true ∧ 6 < line.length then
    let jsonStr := jsDrop line 6
    if jsTrim jsonStr == "[DONE]" || jsTrim jsonStr == "" then line
    else
      match parse jsonStr with
      | some d => "data: " ++ stringify (transform d)
      | none => line
  else line

/-- The shared split / map / join of both SSE shapers. -/
def processStreamData (parse : String → Option Response) (stringify : Response → String)
    (transform : Response → Response) (sseData : String) : String :=
  jsJoinLines ((jsSplitLines sseData).map (processStreamLine parse stringify transform))

/-- Embeds `_processStreamDataForBedrock` (lines 1600-1632). -/
def processStreamDataForBedrock (parse : String → Option Response)
    (stringify : Response → String) (keyType : String) (sseData : String) : String :=
  processStreamData parse stringify (modifyResponseForBedrock keyType) sseData

/-- Embeds `_processStreamDataForClaudeCode` (lines 1634-1666). -/
def processStreamDataForClaudeCode (parse : String → Option Response)
    (stringify : Response → String) (sseData : String) : String :=
  processStreamData parse stringify modifyResponseForClaudeCode sseData

/-! ## Streaming usage capture (`_makeClaudeStreamRequestWithUsageCapture`) -/

/-- A parsed SSE `data:` event, reduced to the fields the usage-capture loop
inspects (lines 857-917).  `messageStart u m`: a `message_start` whose
`message.usage` is `u` and `message.model` is `m`; `messageDelta o`:
a `message_delta` whose `usage.output_tokens` is present iff `o` is. -/
inductive SSEEvent where
  | messageStart (usage : Option Usage) (model : Option String)
  | messageDelta (outputTokens : Option Nat)
  | errorEvent (message : Option String)
  | otherEvent
deriving DecidableEq, Repr

/-- The `collectedUsageData` accumulator object. -/
structure CollectedUsage where
  input_tokens : Option Nat
  cache_creation_input_tokens : Nat
  cache_read_input_tokens : Nat
  model : Option String
  output_tokens : Option Nat
deriving DecidableEq, Repr

/-- The mutable state of the SSE data loop: `collectedUsageData`,
`finalUsageReported`, the usage events passed to `usageCallback` (in order),
and `rateLimitDetected`. -/
structure StreamState where
  collected : CollectedUsage
  finalUsageReported : Bool
  emitted : List CollectedUsage
  rateLimitDetected : Bool
deriving DecidableEq, Repr

/-- Initial loop state (lines 819-822). -/
def initStreamState : StreamState :=
  ⟨⟨none, 0, 0, none, none⟩, false, [], false⟩

/-- The keyType adjustment applied when collecting `message_start` usage
(lines 873-887). -/
def collectStartUsage (keyType : String) (u : Usage) (model : Option String)
    (prev : CollectedUsage) : CollectedUsage :=
  let originalInput := u.input_tokens.getD 0
  let cacheCreation := u.cache_creation_input_tokens.getD 0
  let cacheRead := u.cache_read_input_tokens.getD 0
  if keyType == "aws" then
    { prev with input_tokens := some (if originalInput > 14 then originalInput - 14 else originalInput),
                cache_creation_input_tokens := cacheCreation,
                cache_read_input_tokens := cacheRead,
                model := model }
  else if keyType == "databricks" then
    let total := originalInput + cacheRead + cacheCreation
    { prev with input_tokens := some (if total > 14 then total - 14 else total),
                cache_creation_input_tokens := 0,
                cache_read_input_tokens := 0,
                model := model }
  else
    { prev with input_tokens := some (if originalInput > 14 then originalInput - 14 else originalInput),
                cache_creation_input_tokens := cacheCreation,
                cache_read_input_tokens := cacheRead,
                model := model }

/-- One step of the SSE data loop (lines 865-916). -/
def streamStep (keyType : String) (st : StreamState) : SSEEvent → StreamState
  | .messageStart usage model =>
    match usage with
    | some u => { st with collected := collectStartUsage keyType u model st.collected }
    | none => st
  | .messageDelta outputTokens =>
    match outputTokens with
    | some n =>
      let st1 := { st with collected := { st.collected with output_tokens := some n } }
      if st1.collected.input_tokens.isSome && !st1.finalUsageReported then
        { st1 with emitted := st1.emitted ++ [st1.collected], finalUsageReported := true }
      else st1
    | none => st
  | .errorEvent message =>
    match message with
    | some m =>
      if jsIncludes (jsToLower m) rateLimitPattern then { st with rateLimitDetected := true }
      else st
    | none => st
  | .otherEvent => st

/-- Run the loop over the parsed events of a 200-status stream. -/
def runStream (keyType : String) (events : List SSEEvent) : StreamState :=
  events.foldl (streamStep keyType) initStreamState

/-- The usage events delivered to the caller of
`relayStreamRequestWithUsageCapture`: the wrapper of lines 706-709 adds the
selected `accountId` to every event. -/
def streamEmittedWithAccount (keyType : String) (accountId : String)
    (events : List SSEEvent) : List (CollectedUsage × String) :=
  (runStream keyType events).emitted.map (fun u => (u, accountId))

/-- Returns `true` iff the event carries `message_start` usage data. -/
def isStartWithUsage : SSEEvent → Bool
  | .messageStart (some _) _ => true
  | _ => false

/-- Returns `true` iff the event is a `message_delta` carrying `output_tokens`. -/
def isDeltaWithOutput : SSEEvent → Bool
  | .messageDelta (some _) => true
  | _ => false

/-- Some `message_delta` with output tokens occurs in the list. -/
def hasDeltaOut (events : List SSEEvent) : Bool :=
  events.any isDeltaWithOutput

/-- A `message_start` with usage occurs strictly before a `message_delta`
with output tokens. -/
def hasStartThenDelta : List SSEEvent → Bool
  | [] => false
  | e :: rest => if isStartWithUsage e then hasDeltaOut rest else hasStartThenDelta rest

/-! ## Rate-limit detection and marking -/

/-- The parsed/unparsed shape of a non-2xx upstream response body as inspected by
lines 183-194: `jsonErr msg` is a body that `JSON.parse` accepts, with `msg` the
reachable `error.message` (if any); `unparsable raw` makes `JSON.parse` throw,
falling back to the raw-string check. -/
inductive ResponseBodyModel where
  | jsonErr (message : Option String)
  | unparsable (raw : String)
deriving DecidableEq, Repr

/-- The rate-limit test of lines 184-194. -/
def detectRateLimitBody : ResponseBodyModel → Bool
  | .jsonErr (some m) => jsIncludes (jsToLower m) rateLimitPattern
  | .jsonErr none => false
  | .unparsable raw => !(raw == "") && jsIncludes (jsToLower raw) rateLimitPattern

/-- Whether the non-streaming path (`relayRequest`, lines 181-200) calls
`markAccountRateLimited` for a given upstream status and body. -/
def nonStreamMarksRateLimited (statusCode : Nat) (body : ResponseBodyModel) : Bool :=
  if !(statusCode == 200) && !(statusCode == 201) then detectRateLimitBody body
  else false

/-- Whether the streaming path calls `markAccountRateLimited`.  A non-200 head
takes the error branch of lines 773-797, which ends the stream without ever
attaching the `end` handler of lines 933-988; for a 200 head that handler marks
iff `rateLimitDetected || res.statusCode === 429` (lines 969-972), and the
status there is 200. -/
def streamMarksRateLimited (statusCode : Nat) (keyType : String)
    (events : List SSEEvent) : Bool :=
  if !(statusCode == 200) then false
  else (runStream keyType events).rateLimitDetected || statusCode == 429

/-- State of the account registry as far as rate limiting is concerned. -/
structure RegistryState where
  rateLimitedAt : String → Option Nat
  stickyMap : String → Option String

/-- Modelled from the spec: `claudeAccountService.markAccountRateLimited` is not
under `src/`; §4.4 of the spec says it sets `rate_limited_at = now`,
`status = "limited"`, and deletes the sticky mapping for the supplied session
hash. -/
def markAccountRateLimited (st : RegistryState) (accountId : String)
    (sessionHash : Option String) (now : Nat) : RegistryState :=
  { rateLimitedAt := fun a => if a == accountId then some now else st.rateLimitedAt a,
    stickyMap := fun h => if some h == sessionHash then none else st.stickyMap h }

/-! ## String helper lemmas -/

theorem data_append (p a : String) : (p ++ a).data = p.data ++ a.data :=
  rfl

theorem mk_data (s : String) : String.mk s.data = s := by
  cases s
  rfl

theorem isPrefixOf_append_self (l r : List Char) : l.isPrefixOf (l ++ r) = true := by
  induction l with
  | nil => simp [List.isPrefixOf]
  | cons c cs ih => simp [List.isPrefixOf, ih]

theorem jsStartsWith_append (p a : String) : jsStartsWith (p ++ a) p = true := by
  unfold jsStartsWith
  rw [data_append]
  exact isPrefixOf_append_self _ _

theorem jsDrop_append (p a : String) (n : Nat) (h : p.data.length = n) :
    jsDrop (p ++ a) n = a := by
  unfold jsDrop
  rw [data_append, ← h, List.drop_left, mk_data]

theorem append_ne_empty (p a : String) (h : p.data ≠ []) : ¬(p ++ a) = "" := by
  intro he
  apply h
  have hd := congrArg String.data he
  rw [data_append] at hd
  exact (List.append_eq_nil.mp hd).1

theorem strTruthy_append (p a : String) (h : p.data ≠ []) :
    strTruthy (some (p ++ a)) = true := by
  simp [strTruthy, append_ne_empty p a h]

/-! ## C1: aws/databricks token floor -/

/-- C1: for an `aws` or `databricks` key whose request passes the model-restriction
guard, if the counted input tokens of the shaped body are strictly below 250, both
the non-streaming and the streaming relay paths reject with the 429 token-floor
outcome and never dispatch upstream. -/
theorem aws_databricks_token_floor_rejects
    (pricing : String → Option Nat) (opPrompt : String) (key : ApiKeyData)
    (upstream : Option Nat) (uaMatches : Bool) (body : RequestBody)
    (hkt : key.keyType = "aws" ∨ key.keyType = "databricks")
    (hmr : modelRestrictionDenies key body = false)
    (hcount : countInputTokens upstream
        (processRequestBodyCore pricing opPrompt uaMatches body) < 250) :
    relayRequestOutcome pricing opPrompt key upstream uaMatches body =
        .tokenFloorReject (countInputTokens upstream
          (processRequestBodyCore pricing opPrompt uaMatches body)) ∧
    relayStreamOutcome pricing opPrompt key upstream uaMatches body =
        .tokenFloorReject (countInputTokens upstream
          (processRequestBodyCore pricing opPrompt uaMatches body)) ∧
    (∀ pb, relayRequestOutcome pricing opPrompt key upstream uaMatches body ≠
        .dispatched pb) ∧
    (∀ pb, relayStreamOutcome pricing opPrompt key upstream uaMatches body ≠
        .dispatched pb) := by
  unfold relayRequestOutcome relayStreamOutcome
  rcases hkt with h | h <;> simp [hmr, h, hcount]

/-- Witness for C1 at a concrete aws key and minimal body (estimate 17 tokens). -/
theorem aws_databricks_token_floor_rejects_witness :
    modelRestrictionDenies ⟨"aws", false, []⟩ ⟨none, none, .absent, some []⟩ = false ∧
    countInputTokens none
      (processRequestBodyCore (fun _ => none) "" false ⟨none, none, .absent, some []⟩) < 250 ∧
    relayRequestOutcome (fun _ => none) "" ⟨"aws", false, []⟩ none false
        ⟨none, none, .absent, some []⟩ =
      .tokenFloorReject (countInputTokens none
        (processRequestBodyCore (fun _ => none) "" false ⟨none, none, .absent, some []⟩)) :=
  ⟨by decide, by decide,
    (aws_databricks_token_floor_rejects (fun _ => none) "" ⟨"aws", false, []⟩ none false
      ⟨none, none, .absent, some []⟩ (Or.inl rfl) (by decide) (by decide)).1⟩

/-! ## C2: databricks response rewrite -/

/-- C2: the databricks response shaper rewrites a `msg_`-prefixed top-level id to
`msg_bdrk_`, rewrites `toolu_`-prefixed ids of `tool_use` content items to
`toolu_bdrk_`, sets `input_tokens` to `input + cache_read + cache_creation - 14`
when that sum exceeds 14 (otherwise the sum itself), zeroes both cache counters,
and leaves the remaining usage fields (notably `output_tokens`) unchanged. -/
theorem databricks_response_rewrite (r : Response) (a : String) (u : Usage)
    (i cr cc : Nat) (items : List RContentItem)
    (hid : r.id = some ("msg_" ++ a))
    (hu : r.usage = some u) (hi : u.input_tokens = some i)
    (hcr : u.cache_read_input_tokens = some cr)
    (hcc : u.cache_creation_input_tokens = some cc)
    (hcont : r.content = some items) :
    (modifyResponseForBedrock "databricks" r).id = some ("msg_bdrk_" ++ a) ∧
    (modifyResponseForBedrock "databricks" r).content =
      some (items.map bedrockContentRewrite) ∧
    (∀ it b2, it.rtype = some "tool_use" → it.rid = some ("toolu_" ++ b2) →
        bedrockContentRewrite it = { it with rid := some ("toolu_bdrk_" ++ b2) }) ∧
    (∀ it, ¬it.rtype = some "tool_use" → bedrockContentRewrite it = it) ∧
    (modifyResponseForBedrock "databricks" r).usage = some
      { u with input_tokens :=
                  some (if 14 < i + cr + cc then i + cr + cc - 14 else i + cr + cc),
               cache_creation_input_tokens := some 0,
               cache_read_input_tokens := some 0 } := by
  have hmsg4 : ("msg_" : String).data ≠ [] := by decide
  have hmsglen : ("msg_" : String).data.length = 4 := by decide
  have htool6 : ("toolu_" : String).data ≠ [] := by decide
  have htoollen : ("toolu_" : String).data.length = 6 := by decide
  refine ⟨?_, ?_, ?_, ?_, ?_⟩
  · simp [modifyResponseForBedrock, hid, bedrockRewriteMsgId,
      strTruthy_append _ _ hmsg4, jsStartsWith_append, jsDrop_append _ _ _ hmsglen]
  · simp [modifyResponseForBedrock, hcont]
  · intro it b2 hty hidit
    simp [bedrockContentRewrite, hty, hidit, strTruthy_append _ _ htool6,
      jsStartsWith_append, jsDrop_append _ _ _ htoollen]
  · intro it hty
    simp [bedrockContentRewrite]
    intro h
    exact absurd h hty
  · have hdb : (("databricks" : String) == "aws") = false := by decide
    have hdb2 : (("databricks" : String) == "databricks") = true := by decide
    simp [modifyResponseForBedrock, hu, bedrockUsageRewrite, hi, hcr, hcc, hdb, hdb2]

/-- Witness for C2: the S4 scenario response. -/
theorem databricks_response_rewrite_witness :
    (modifyResponseForBedrock "databricks"
        ⟨some "msg_01ABC", none, some [⟨some "tool_use", some "toolu_42", none⟩],
          none, some ⟨some 1000, some 50, some 200, some 30⟩⟩).id =
      some "msg_bdrk_01ABC" ∧
    (modifyResponseForBedrock "databricks"
        ⟨some "msg_01ABC", none, some [⟨some "tool_use", some "toolu_42", none⟩],
          none, some ⟨some 1000, some 50, some 200, some 30⟩⟩).content =
      some [⟨some "tool_use", some "toolu_bdrk_42", none⟩] ∧
    (modifyResponseForBedrock "databricks"
        ⟨some "msg_01ABC", none, some [⟨some "tool_use", some "toolu_42", none⟩],
          none, some ⟨some 1000, some 50, some 200, some 30⟩⟩).usage =
      some ⟨some 1236, some 0, some 0, some 30⟩ := by
  have h := databricks_response_rewrite
    ⟨some "msg_01ABC", none, some [⟨some "tool_use", some "toolu_42", none⟩],
      none, some ⟨some 1000, some 50, some 200, some 30⟩⟩
    "01ABC" ⟨some 1000, some 50, some 200, some 30⟩ 1000 200 50
    [⟨some "tool_use", some "toolu_42", none⟩] rfl rfl rfl rfl rfl rfl
  refine ⟨?_, ?_, ?_⟩
  · rw [h.1]
    decide
  · rw [h.2.1]
    decide
  · rw [h.2.2.2.2]
    decide

/-! ## C3: cc/anthropic usage subtraction -/

/-- C3: the cc (and anthropic) response shaper subtracts 14 from `usage.input_tokens`
when the original exceeds 14, leaves it unchanged otherwise, applies the same rule to
a nested `message.usage`, and leaves all other fields of both usage objects (and of
the response) unchanged.  (`_processResponseByKeyType` routes both the `cc` and
`anthropic` personas through `_modifyResponseForClaudeCode`, lines 1250-1287.) -/
theorem cc_response_usage_rewrite (r : Response) (u : Usage) (n : Nat)
    (m : MessageObj) (mu : Usage) (k : Nat)
    (hu : r.usage = some u) (hn : u.input_tokens = some n)
    (hm : r.message = some m) (hmu : m.musage = some mu)
    (hk : mu.input_tokens = some k) :
    modifyResponseForClaudeCode r =
      { r with
          usage := some { u with input_tokens := some (if 14 < n then n - 14 else n) },
          message := some { m with musage := some { mu with input_tokens := some (if 14 < k then k - 14 else k) } } } := by
  simp [modifyResponseForClaudeCode, hu, hm, hmu, claudeCodeUsageRewrite, hn, hk]

/-- Witness for C3: input 100 becomes 86, nested input 10 stays 10, other fields kept. -/
theorem cc_response_usage_rewrite_witness :
    modifyResponseForClaudeCode
        ⟨some "msg_1", some ⟨some "msg_1", some ⟨some 10, some 2, some 3, none⟩, some "mo"⟩,
          none, none, some ⟨some 100, some 5, some 6, some 7⟩⟩ =
      ⟨some "msg_1", some ⟨some "msg_1", some ⟨some 10, some 2, some 3, none⟩, some "mo"⟩,
        none, none, some ⟨some 86, some 5, some 6, some 7⟩⟩ := by
  have h := cc_response_usage_rewrite
    ⟨some "msg_1", some ⟨some "msg_1", some ⟨some 10, some 2, some 3, none⟩, some "mo"⟩,
      none, none, some ⟨some 100, some 5, some 6, some 7⟩⟩
    ⟨some 100, some 5, some 6, some 7⟩ 100
    ⟨some "msg_1", some ⟨some 10, some 2, some 3, none⟩, some "mo"⟩
    ⟨some 10, some 2, some 3, none⟩ 10 rfl rfl rfl rfl rfl
  rw [h]
  decide

/-! ## C8 / C10: fallback estimator -/

/-- Character total as the spec describes it for C8: "sum the character counts of
every text payload in `messages[*].content` (strings or text-typed objects) and in
`system` (string or text-typed array)" — per content item. -/
def specItemChars : ContentItem → Nat
  | .nullItem => 0
  | .item ty tx _ => if ty == some "text" then (tx.getD "").length else 0

/-- Spec-side character total of one message. -/
def specMessageChars : JsMessage → Nat
  | .nullMsg => 0
  | .msg _ c =>
    match c with
    | .str s => s.length
    | .arr items => (items.map specItemChars).sum
    | _ => 0

/-- Spec-side character total of the `system` field. -/
def specSystemChars : SystemField → Nat
  | .str s => s.length
  | .arr items => (items.map specItemChars).sum
  | _ => 0

/-- Spec-side total character count of a request body. -/
def specTotalChars (b : RequestBody) : Nat :=
  (match b.messages with
   | some msgs => (msgs.map specMessageChars).sum
   | none => 0) + specSystemChars b.system

/-- A non-null array element. -/
def itemNotNull : ContentItem → Bool
  | .nullItem => false
  | .item _ _ _ => true

/-- A message conforming to the messages schema (non-null, null-free content). -/
def messageWellFormed : JsMessage → Bool
  | .nullMsg => false
  | .msg _ c =>
    match c with
    | .arr items => items.all itemNotNull
    | _ => true

/-- A body conforming to the messages schema: no null message or content/system
array elements (the values on which the character estimator would throw). -/
def bodyWellFormed (b : RequestBody) : Bool :=
  (match b.messages with
   | some msgs => msgs.all messageWellFormed
   | none => true) &&
  (match b.system with
   | .arr items => items.all itemNotNull
   | _ => true)

theorem estimateItemChars_ok (it : ContentItem) (h : itemNotNull it = true) :
    estimateItemChars it = .ok (specItemChars it) := by
  cases it with
  | nullItem => simp [itemNotNull] at h
  | item ty tx cc =>
    cases tx with
    | none => simp [estimateItemChars, specItemChars, strTruthy]
    | some t =>
      by_cases ht : t = ""
      · subst ht
        simp [estimateItemChars, specItemChars, strTruthy]
      · simp [estimateItemChars, specItemChars, strTruthy, ht]
        split <;> rfl

theorem estimateItemsChars_ok (items : List ContentItem)
    (h : items.all itemNotNull = true) :
    estimateItemsChars items = .ok ((items.map specItemChars).sum) := by
  induction items with
  | nil => rfl
  | cons it rest ih =>
    rw [List.all_cons, Bool.and_eq_true] at h
    simp [estimateItemsChars, estimateItemChars_ok it h.1, ih h.2]

theorem estimateMessageChars_ok (m : JsMessage) (h : messageWellFormed m = true) :
    estimateMessageChars m = .ok (specMessageChars m) := by
  cases m with
  | nullMsg => simp [messageWellFormed] at h
  | msg role c =>
    cases c with
    | absent => rfl
    | str s => rfl
    | arr items =>
      simp only [messageWellFormed] at h
      simp [estimateMessageChars, specMessageChars, estimateItemsChars_ok items h]
    | other => rfl

theorem estimateMessagesChars_ok (msgs : List JsMessage)
    (h : msgs.all messageWellFormed = true) :
    estimateMessagesChars msgs = .ok ((msgs.map specMessageChars).sum) := by
  induction msgs with
  | nil => rfl
  | cons m rest ih =>
    rw [List.all_cons, Bool.and_eq_true] at h
    simp [estimateMessagesChars, estimateMessageChars_ok m h.1, ih h.2]

theorem estimateSystemChars_ok (s : SystemField)
    (h : (match s with
          | .arr items => items.all itemNotNull
          | _ => true) = true) :
    estimateSystemChars s = .ok (specSystemChars s) := by
  cases s with
  | absent => rfl
  | str s => rfl
  | arr items => simp [estimateSystemChars, specSystemChars, estimateItemsChars_ok items h]
  | other t => rfl

/-- C8: `countInputTokens` never throws (it is a total function into `Nat`), and
whenever the upstream count-tokens call fails (`upstream = none`), on a body
conforming to the messages schema it returns `ceil(totalChars / 3.5)` — that is,
`(2 * totalChars + 6) / 7` — for the spec-described character total. -/
theorem count_input_tokens_fallback_estimate (b : RequestBody)
    (h : bodyWellFormed b = true) :
    countInputTokens none b = (2 * specTotalChars b + 6) / 7 := by
  unfold bodyWellFormed at h
  rw [Bool.and_eq_true] at h
  have hmsgs :
      (match b.messages with
       | some msgs => estimateMessagesChars msgs
       | none => Except.ok 0) =
        .ok (match b.messages with
             | some msgs => (msgs.map specMessageChars).sum
             | none => 0) := by
    cases hm : b.messages with
    | none => rfl
    | some msgs =>
      rw [hm] at h
      exact estimateMessagesChars_ok msgs h.1
  have hsys := estimateSystemChars_ok b.system h.2
  simp [countInputTokens, estimateTokenCount, estimateInner, hmsgs, hsys, specTotalChars]

/-- Witness for C8: "hello world" (11 chars) in `system`, "hi!" (3 chars) in a
message: 14 characters, ceil(14 / 3.5) = 4. -/
theorem count_input_tokens_fallback_estimate_witness :
    bodyWellFormed ⟨none, none, .str "hello world", some [.msg (some "user") (.str "hi!")]⟩ = true ∧
    countInputTokens none ⟨none, none, .str "hello world", some [.msg (some "user") (.str "hi!")]⟩ =
      (2 * specTotalChars ⟨none, none, .str "hello world", some [.msg (some "user") (.str "hi!")]⟩ + 6) / 7 ∧
    countInputTokens none ⟨none, none, .str "hello world", some [.msg (some "user") (.str "hi!")]⟩ = 4 :=
  ⟨by decide,
    count_input_tokens_fallback_estimate
      ⟨none, none, .str "hello world", some [.msg (some "user") (.str "hi!")]⟩ (by decide),
    by decide⟩

/-- C10 (implicit): if the character estimator itself throws, `countInputTokens`
returns the constant 500; since 500 is not below 250, an `aws`/`databricks` request
whose shaped body defeats the estimator is never rejected by the token floor:
the relay dispatches it. -/
theorem estimator_throw_returns_500 (b : RequestBody)
    (herr : estimateInner b = .error ()) :
    countInputTokens none b = 500 ∧
    ¬countInputTokens none b < 250 ∧
    (∀ (pricing : String → Option Nat) (opPrompt : String) (key : ApiKeyData)
        (uaMatches : Bool) (body0 : RequestBody),
      (key.keyType = "aws" ∨ key.keyType = "databricks") →
      modelRestrictionDenies key body0 = false →
      processRequestBodyCore pricing opPrompt uaMatches body0 = b →
      relayRequestOutcome pricing opPrompt key none uaMatches body0 = .dispatched b) := by
  have h500 : countInputTokens none b = 500 := by
    simp [countInputTokens, estimateTokenCount, herr]
  refine ⟨h500, by rw [h500]; decide, ?_⟩
  intro pricing opPrompt key uaMatches body0 hkt hmr hproc
  unfold relayRequestOutcome
  rw [hproc]
  rcases hkt with h | h <;> simp [hmr, h, h500]

/-- Witness for C10: a messages array containing a JS `null` makes the estimator
throw; the relayed aws request with that body is dispatched, not floor-rejected. -/
theorem estimator_throw_returns_500_witness :
    estimateInner ⟨none, none, .arr [ccPromptItem], some [.nullMsg]⟩ = .error () ∧
    countInputTokens none ⟨none, none, .arr [ccPromptItem], some [.nullMsg]⟩ = 500 ∧
    relayRequestOutcome (fun _ => none) "" ⟨"aws", false, []⟩ none false
        ⟨none, none, .absent, some [.nullMsg]⟩ =
      .dispatched ⟨none, none, .arr [ccPromptItem], some [.nullMsg]⟩ := by
  have h := estimator_throw_returns_500
    ⟨none, none, .arr [ccPromptItem], some [.nullMsg]⟩ (by rfl)
  exact ⟨by rfl, h.1,
    h.2.2 (fun _ => none) "" ⟨"aws", false, []⟩ false
      ⟨none, none, .absent, some [.nullMsg]⟩ (Or.inl rfl) (by decide) (by decide)⟩

/-! ## C9: string-valued system normalization -/

/-- C9 (counterexample): for a system string that differs from the Claude Code
literal S only by a trailing space — so it is *not equal* to S — the claim predicts
the two-element array `[S-block, text]`, but the code compares `system.trim()` to S
(line 269) and produces the single-element `[S-block]`. -/
theorem system_string_trim_counterexample :
    (processRequestBodyCore (fun _ => none) "" false
        ⟨none, none, .str (claudeCodeSystemPrompt ++ " "), none⟩).system =
      .arr [ccPromptItem] ∧
    ¬(processRequestBodyCore (fun _ => none) "" false
        ⟨none, none, .str (claudeCodeSystemPrompt ++ " "), none⟩).system =
      .arr [ccPromptItem,
            .item (some "text") (some (claudeCodeSystemPrompt ++ " ")) none] := by
  constructor
  · decide
  · decide

/-- C9 (amended): for a non-genuine request whose body `system` is a non-empty
string `s`, the shaper replaces it with `[S-block]` when the *trimmed* string
equals S, and with `[S-block, {type:"text", text:s}]` otherwise (operator prompt
unconfigured). -/
theorem clamp_system (pricing : String → Option Nat) (b : RequestBody) :
    (validateAndLimitMaxTokens pricing b).system = b.system := by
  unfold validateAndLimitMaxTokens
  split
  · rfl
  · split
    · rfl
    · split
      · rfl
      · split
        · rfl
        · split <;> rfl

theorem clamp_model (pricing : String → Option Nat) (b : RequestBody) :
    (validateAndLimitMaxTokens pricing b).model = b.model := by
  unfold validateAndLimitMaxTokens
  split
  · rfl
  · split
    · rfl
    · split
      · rfl
      · split
        · rfl
        · split <;> rfl

theorem clamp_messages (pricing : String → Option Nat) (b : RequestBody) :
    (validateAndLimitMaxTokens pricing b).messages = b.messages := by
  unfold validateAndLimitMaxTokens
  split
  · rfl
  · split
    · rfl
    · split
      · rfl
      · split
        · rfl
        · split <;> rfl

theorem strip_system_str (b : RequestBody) (s : String) (hsys : b.system = .str s) :
    (stripTtlFromCacheControl b).system = .str s := by
  unfold stripTtlFromCacheControl
  simp [hsys]

theorem norm_of_system_str (uaMatches : Bool) (b : RequestBody) (s : String)
    (hsys : b.system = .str s) (hs : ¬s = "") :
    normalizeSystemPrompt uaMatches b =
      { b with system :=
          if jsTrim s == claudeCodeSystemPrompt then .arr [ccPromptItem]
          else .arr [ccPromptItem, .item (some "text") (some s) none] } := by
  unfold normalizeSystemPrompt isRealClaudeCodeRequest hasClaudeCodeSystemPrompt
  rw [hsys]
  simp [hs]
  split <;> rfl

theorem appendOp_empty_keeps (b : RequestBody) (rest : List ContentItem)
    (hsys : b.system = .arr (ccPromptItem :: rest)) :
    appendOperatorPrompt "" b = b := by
  unfold appendOperatorPrompt
  rw [hsys]
  have hvalid : itemHasValidText ccPromptItem = true := by decide
  simp [List.any_cons, hvalid]

theorem system_string_normalization (pricing : String → Option Nat)
    (uaMatches : Bool) (b : RequestBody) (s : String)
    (hsys : b.system = .str s) (hs : ¬s = "") :
    (processRequestBodyCore pricing "" uaMatches b).system =
      (if jsTrim s = claudeCodeSystemPrompt then SystemField.arr [ccPromptItem]
       else .arr [ccPromptItem, .item (some "text") (some s) none]) := by
  have h1 : (validateAndLimitMaxTokens pricing b).system = .str s := by
    rw [clamp_system, hsys]
  have h2 := strip_system_str (validateAndLimitMaxTokens pricing b) s h1
  have h3 := norm_of_system_str uaMatches
    (stripTtlFromCacheControl (validateAndLimitMaxTokens pricing b)) s h2 hs
  unfold processRequestBodyCore
  rw [h3]
  by_cases htrim : (jsTrim s == claudeCodeSystemPrompt) = true
  · have heq : jsTrim s = claudeCodeSystemPrompt := eq_of_beq htrim
    rw [appendOp_empty_keeps _ [] (by simp [htrim])]
    simp [htrim, heq]
  · rw [appendOp_empty_keeps _ [.item (some "text") (some s) none]
      (by simp [htrim])]
    have : ¬jsTrim s = claudeCodeSystemPrompt := by
      intro hh
      exact htrim (by simp [hh])
    simp [htrim, this]

/-- Witness for the amended C9: `system = "be brief"` yields the two-element array. -/
theorem system_string_normalization_witness :
    (processRequestBodyCore (fun _ => none) "" false
        ⟨none, none, .str "be brief", none⟩).system =
      .arr [ccPromptItem, .item (some "text") (some "be brief") none] := by
  have h := system_string_normalization (fun _ => none) false
    ⟨none, none, .str "be brief", none⟩ "be brief" rfl (by decide)
  rw [h]
  decide

/-! ## C4: usage-event emission -/

theorem hasStartThenDelta_imp (evs : List SSEEvent)
    (h : hasStartThenDelta evs = true) : hasDeltaOut evs = true := by
  induction evs with
  | nil => simp [hasStartThenDelta] at h
  | cons e rest ih =>
    rw [hasStartThenDelta] at h
    rw [hasDeltaOut, List.any_cons]
    by_cases hs : isStartWithUsage e = true
    · simp only [hs, if_true] at h
      simp [hasDeltaOut] at h
      simp [h]
    · simp only [hs] at h
      simp only [if_false, Bool.false_eq_true] at h
      have := ih h
      simp [hasDeltaOut] at this
      simp [this]

/-- Bound/characterization condition for a fold starting from an arbitrary state. -/
def streamCond (st : StreamState) (evs : List SSEEvent) : Bool :=
  !st.finalUsageReported &&
    ((st.collected.input_tokens.isSome && hasDeltaOut evs) || hasStartThenDelta evs)

theorem collectStartUsage_isSome (keyType : String) (u : Usage) (model : Option String)
    (prev : CollectedUsage) :
    (collectStartUsage keyType u model prev).input_tokens.isSome = true := by
  unfold collectStartUsage
  split
  · rfl
  · split <;> rfl

theorem hasDeltaOut_cons (e : SSEEvent) (rest : List SSEEvent) :
    hasDeltaOut (e :: rest) = (isDeltaWithOutput e || hasDeltaOut rest) := by
  simp [hasDeltaOut, List.any_cons]

theorem hasStartThenDelta_cons (e : SSEEvent) (rest : List SSEEvent) :
    hasStartThenDelta (e :: rest) =
      if isStartWithUsage e then hasDeltaOut rest else hasStartThenDelta rest :=
  rfl

theorem foldl_emitted_length (keyType : String) (evs : List SSEEvent) :
    ∀ st : StreamState,
      ((evs.foldl (streamStep keyType) st).emitted).length =
        st.emitted.length + (if streamCond st evs = true then 1 else 0) := by
  induction evs with
  | nil =>
    intro st
    simp [streamCond, hasDeltaOut, hasStartThenDelta]
  | cons e rest ih =>
    intro st
    rw [List.foldl_cons, ih (streamStep keyType st e)]
    cases e with
    | messageStart usage model =>
      cases usage with
      | none =>
        have hc : streamCond st (SSEEvent.messageStart none model :: rest) =
            streamCond st rest := by
          simp [streamCond, hasDeltaOut_cons, hasStartThenDelta_cons,
            isStartWithUsage, isDeltaWithOutput]
        simp only [streamStep, hc]
      | some u =>
        have hinp := collectStartUsage_isSome keyType u model st.collected
        cases hd : hasDeltaOut rest with
        | true =>
          simp [streamStep, streamCond, hasDeltaOut_cons, hasStartThenDelta_cons,
            isStartWithUsage, isDeltaWithOutput, hinp, hd]
        | false =>
          cases hstd : hasStartThenDelta rest with
          | true => rw [hasStartThenDelta_imp rest hstd] at hd; cases hd
          | false =>
            simp [streamStep, streamCond, hasDeltaOut_cons, hasStartThenDelta_cons,
              isStartWithUsage, isDeltaWithOutput, hinp, hd, hstd]
    | messageDelta outputTokens =>
      cases outputTokens with
      | none =>
        have hc : streamCond st (SSEEvent.messageDelta none :: rest) =
            streamCond st rest := by
          simp [streamCond, hasDeltaOut_cons, hasStartThenDelta_cons,
            isStartWithUsage, isDeltaWithOutput]
        simp only [streamStep, hc]
      | some n =>
        by_cases hin : st.collected.input_tokens.isSome = true
        · by_cases hrep : st.finalUsageReported = true
          · simp [streamStep, streamCond, hasDeltaOut_cons, hasStartThenDelta_cons,
              isStartWithUsage, isDeltaWithOutput, hin, hrep]
          · simp only [Bool.not_eq_true] at hrep
            simp [streamStep, streamCond, hasDeltaOut_cons, hasStartThenDelta_cons,
              isStartWithUsage, isDeltaWithOutput, hin, hrep]
        · simp only [Bool.not_eq_true] at hin
          simp [streamStep, streamCond, hasDeltaOut_cons, hasStartThenDelta_cons,
            isStartWithUsage, isDeltaWithOutput, hin]
    | errorEvent message =>
      cases message with
      | none =>
        have hc : streamCond st (SSEEvent.errorEvent none :: rest) =
            streamCond st rest := by
          simp [streamCond, hasDeltaOut_cons, hasStartThenDelta_cons,
            isStartWithUsage, isDeltaWithOutput]
        simp only [streamStep, hc]
      | some m =>
        have hc : streamCond st (SSEEvent.errorEvent (some m) :: rest) =
            streamCond st rest := by
          simp [streamCond, hasDeltaOut_cons, hasStartThenDelta_cons,
            isStartWithUsage, isDeltaWithOutput]
        by_cases hpat : jsIncludes (jsToLower m) rateLimitPattern = true
        · simp only [streamStep, hpat, if_true, hc]
          rfl
        · simp only [streamStep, hpat, hc]
          simp only [if_false, Bool.false_eq_true]
    | otherEvent =>
      have hc : streamCond st (SSEEvent.otherEvent :: rest) = streamCond st rest := by
        simp [streamCond, hasDeltaOut_cons, hasStartThenDelta_cons,
          isStartWithUsage, isDeltaWithOutput]
      simp only [streamStep, hc]

/-- C4 (amended): over any parsed 200-status event stream, the usage callback fires
at most once (guarded by `finalUsageReported`); it fires exactly once iff a
`message_start` with usage is later followed by a `message_delta` carrying
`output_tokens`; and every delivered event carries the selected account id. -/
theorem stream_usage_capture_characterization (keyType accountId : String)
    (events : List SSEEvent) :
    (streamEmittedWithAccount keyType accountId events).length ≤ 1 ∧
    ((streamEmittedWithAccount keyType accountId events).length = 1 ↔
        hasStartThenDelta events = true) ∧
    (∀ e ∈ streamEmittedWithAccount keyType accountId events, e.2 = accountId) := by
  have hlen : (runStream keyType events).emitted.length =
      (if streamCond initStreamState events = true then 1 else 0) := by
    simpa [runStream, initStreamState] using foldl_emitted_length keyType events initStreamState
  have hcond : streamCond initStreamState events = hasStartThenDelta events := by
    simp [streamCond, initStreamState]
  have hmap : (streamEmittedWithAccount keyType accountId events).length =
      (runStream keyType events).emitted.length := by
    simp [streamEmittedWithAccount]
  refine ⟨?_, ?_, ?_⟩
  · rw [hmap, hlen]
    split <;> simp
  · rw [hmap, hlen, hcond]
    cases hasStartThenDelta events <;> simp
  · intro e he
    simp only [streamEmittedWithAccount, List.mem_map] at he
    obtain ⟨u, _, rfl⟩ := he
    rfl

/-- Witness for C4 (amended): a `message_start` followed by a `message_delta`
yields exactly one event, tagged with the account id. -/
theorem stream_usage_capture_characterization_witness :
    (streamEmittedWithAccount "cc" "acct-1"
        [.messageStart (some ⟨some 20, some 0, some 0, none⟩) (some "claude"),
         .messageDelta (some 5)]).length = 1 ∧
    (∀ e ∈ streamEmittedWithAccount "cc" "acct-1"
        [.messageStart (some ⟨some 20, some 0, some 0, none⟩) (some "claude"),
         .messageDelta (some 5)], e.2 = "acct-1") := by
  have h := stream_usage_capture_characterization "cc" "acct-1"
    [.messageStart (some ⟨some 20, some 0, some 0, none⟩) (some "claude"),
     .messageDelta (some 5)]
  exact ⟨h.2.1.mpr (by decide), h.2.2⟩

/-- C4 (counterexample): a 200 stream whose events carry `message_start` usage but
no `message_delta` emits zero usage events — not exactly one. -/
theorem stream_usage_zero_events_counterexample :
    streamEmittedWithAccount "cc" "acct-1"
        [.messageStart (some ⟨some 20, some 0, some 0, none⟩) (some "claude")] = [] ∧
    ¬(streamEmittedWithAccount "cc" "acct-1"
        [.messageStart (some ⟨some 20, some 0, some 0, none⟩) (some "claude")]).length = 1 := by
  constructor <;> decide

/-! ## C5: rate-limit marking -/

/-- C5 (counterexample): an upstream 429 whose body carries no rate-limit substring
is *not* marked — in the non-streaming path the detection looks only at the body
(lines 181-200), and in the streaming path a non-200 head never reaches the
marking code (lines 773-797 vs 969-972). -/
theorem rate_limit_429_no_substring_counterexample :
    nonStreamMarksRateLimited 429 (.jsonErr none) = false ∧
    streamMarksRateLimited 429 "cc" [] = false := by
  constructor <;> rfl

/-- C5 (amended): marking (and with it sticky eviction) is triggered exactly by the
case-insensitive body substring on a non-200/201 response in the non-streaming path,
and exactly by an in-stream rate-limit error event within a 200-status stream in the
streaming path; `markAccountRateLimited` records the limit and evicts the sticky
mapping of the supplied session hash. -/
theorem rate_limit_marking_characterization :
    (∀ (status : Nat) (body : ResponseBodyModel),
        nonStreamMarksRateLimited status body = true ↔
          (¬status = 200 ∧ ¬status = 201 ∧ detectRateLimitBody body = true)) ∧
    (∀ (status : Nat) (keyType : String) (events : List SSEEvent),
        streamMarksRateLimited status keyType events = true ↔
          (status = 200 ∧ (runStream keyType events).rateLimitDetected = true)) ∧
    (∀ (st : RegistryState) (acc h : String) (now : Nat),
        (markAccountRateLimited st acc (some h) now).stickyMap h = none ∧
        (markAccountRateLimited st acc (some h) now).rateLimitedAt acc = some now) := by
  refine ⟨?_, ?_, ?_⟩
  · intro status body
    unfold nonStreamMarksRateLimited
    by_cases h200 : status = 200
    · simp [h200]
    · by_cases h201 : status = 201
      · simp [h201]
      · simp [h200, h201]
  · intro status keyType events
    unfold streamMarksRateLimited
    by_cases h200 : status = 200
    · subst h200
      simp
    · simp [h200]
  · intro st acc h now
    constructor <;> simp [markAccountRateLimited]

/-- Witness for C5 (amended): a 529 response whose error message carries the
substring is marked; the registry transition evicts the sticky mapping. -/
theorem rate_limit_marking_characterization_witness :
    nonStreamMarksRateLimited 529
      (.jsonErr (some ("This request would exceed your account" ++
        String.singleton (Char.ofNat 39) ++ "s rate limit"))) = true ∧
    (markAccountRateLimited ⟨fun _ => none, fun _ => some "acct-1"⟩ "acct-1"
      (some "hash-1") 42).stickyMap "hash-1" = none := by
  have h := rate_limit_marking_characterization
  refine ⟨?_, (h.2.2 ⟨fun _ => none, fun _ => some "acct-1"⟩ "acct-1" "hash-1" 42).1⟩
  exact (h.1 529 (.jsonErr (some ("This request would exceed your account" ++
    String.singleton (Char.ofNat 39) ++ "s rate limit")))).mpr
    ⟨by decide, by decide, by decide⟩

/-! ## C7: SSE chunk line discipline -/

theorem splitNlChars_ne_nil (l : List Char) : ¬splitNlChars l = [] := by
  induction l with
  | nil => simp [splitNlChars]
  | cons c rest ih =>
    rw [splitNlChars]
    by_cases hc : (c == '\n') = true
    · simp [hc]
    · simp only [hc, if_false, Bool.false_eq_true]
      cases hs : splitNlChars rest <;> simp

theorem joinNlChars_single (l : List Char) : joinNlChars [l] = l :=
  rfl

theorem joinNlChars_cons2 (l m : List Char) (ms : List (List Char)) :
    joinNlChars (l :: m :: ms) = l ++ '\n' :: joinNlChars (m :: ms) :=
  rfl

theorem joinNl_splitNl (l : List Char) : joinNlChars (splitNlChars l) = l := by
  induction l with
  | nil => rfl
  | cons c rest ih =>
    rw [splitNlChars]
    by_cases hc : (c == '\n') = true
    · have hcc : c = '\n' := by simpa using hc
      rw [if_pos hc]
      cases hs : splitNlChars rest with
      | nil => exact absurd hs (splitNlChars_ne_nil rest)
      | cons a as =>
        rw [hs] at ih
        rw [joinNlChars_cons2, ih, hcc]
        rfl
    · rw [if_neg hc]
      cases hs : splitNlChars rest with
      | nil => exact absurd hs (splitNlChars_ne_nil rest)
      | cons a as =>
        rw [hs] at ih
        show joinNlChars ((c :: a) :: as) = c :: rest
        cases as with
        | nil =>
          rw [joinNlChars_single] at ih
          rw [joinNlChars_single, ih]
        | cons b bs =>
          rw [joinNlChars_cons2] at ih
          rw [joinNlChars_cons2, ← ih]
          rfl

theorem map_self_of_eq {α : Type} (l : List α) (f : α → α) (h : ∀ x ∈ l, f x = x) :
    l.map f = l := by
  induction l with
  | nil => rfl
  | cons a as ih =>
    rw [List.map_cons, h a (by simp), ih (fun x hx => h x (by simp [hx]))]

theorem jsJoin_jsSplit (s : String) : jsJoinLines (jsSplitLines s) = s := by
  unfold jsJoinLines jsSplitLines
  rw [List.map_map]
  have hco : (String.data ∘ String.mk) = id := funext (fun _ => rfl)
  rw [hco, List.map_id, joinNl_splitNl, mk_data]

theorem data_ne_nil_of_ne_empty (p : String) (h : ¬p = "") : ¬p.data = [] := by
  intro hd
  apply h
  have := congrArg String.mk hd
  rwa [mk_data] at this

/-- C7: per SSE chunk, each `data: <json>` line with parseable payload is parsed,
transformed by the persona rewrite, re-serialized and re-prefixed; `[DONE]`,
whitespace-only payloads, non-`data:` lines, and unparseable payloads pass through
byte-for-byte; the chunk result is exactly the newline-join of the per-line results,
and a chunk none of whose lines change passes through unchanged. -/
theorem sse_line_discipline (parse : String → Option Response)
    (stringify : Response → String) (keyType : String) :
    (∀ payload d, ¬jsTrim payload = "[DONE]" → ¬jsTrim payload = "" →
        parse payload = some d →
        processStreamLine parse stringify (modifyResponseForBedrock keyType)
            ("data: " ++ payload) =
          "data: " ++ stringify (modifyResponseForBedrock keyType d) ∧
        processStreamLine parse stringify modifyResponseForClaudeCode
            ("data: " ++ payload) =
          "data: " ++ stringify (modifyResponseForClaudeCode d)) ∧
    (∀ (transform : Response → Response) line, jsStartsWith line "data: " = false →
        processStreamLine parse stringify transform line = line) ∧
    (∀ (transform : Response → Response) payload,
        jsTrim payload = "[DONE]" ∨ jsTrim payload = "" ∨ parse payload = none →
        processStreamLine parse stringify transform ("data: " ++ payload) =
          "data: " ++ payload) ∧
    (∀ sseData,
        processStreamDataForBedrock parse stringify keyType sseData =
          jsJoinLines ((jsSplitLines sseData).map
            (processStreamLine parse stringify (modifyResponseForBedrock keyType))) ∧
        processStreamDataForClaudeCode parse stringify sseData =
          jsJoinLines ((jsSplitLines sseData).map
            (processStreamLine parse stringify modifyResponseForClaudeCode))) ∧
    (∀ (transform : Response → Response) sseData,
        (∀ l ∈ jsSplitLines sseData,
            processStreamLine parse stringify transform l = l) →
        processStreamData parse stringify transform sseData = sseData) := by
  have hdatalen : ("data: " : String).data.length = 6 := by decide
  have hlen : ∀ payload : String, ¬payload = "" → 6 < ("data: " ++ payload).length := by
    intro payload hp
    show 6 < ("data: " ++ payload).data.length
    rw [data_append, List.length_append, hdatalen]
    have hd := data_ne_nil_of_ne_empty payload hp
    cases hq : payload.data with
    | nil => exact absurd hq hd
    | cons a as => simp [hq]
  have hne : ∀ payload : String, ¬jsTrim payload = "" → ¬payload = "" := by
    intro payload ht hp
    subst hp
    exact ht rfl
  have hinner : ∀ payload : String, ¬jsTrim payload = "[DONE]" → ¬jsTrim payload = "" →
      ((jsTrim payload == "[DONE]") || (jsTrim payload == "")) = false := by
    intro payload hdone hempty
    rw [Bool.or_eq_false_iff]
    exact ⟨beq_eq_false_iff_ne.mpr hdone, beq_eq_false_iff_ne.mpr hempty⟩
  refine ⟨?_, ?_, ?_, ?_, ?_⟩
  · intro payload d hdone hempty hparse
    have hp := hne payload hempty
    have hcond : jsStartsWith ("data: " ++ payload) "data: " = true ∧
        6 < ("data: " ++ payload).length :=
      ⟨jsStartsWith_append _ _, hlen payload hp⟩
    constructor <;>
      · unfold processStreamLine
        rw [if_pos hcond]
        simp only [jsDrop_append _ _ _ hdatalen]
        rw [hinner payload hdone hempty]
        simp only [Bool.false_eq_true, if_false, hparse]
  · intro transform line hns
    unfold processStreamLine
    rw [if_neg]
    intro hcond
    rw [hns] at hcond
    exact Bool.false_ne_true hcond.1
  · intro transform payload hcase
    by_cases hp : payload = ""
    · subst hp
      unfold processStreamLine
      rw [if_neg]
      intro hcond
      have h6 : ("data: " ++ "").length = 6 := by decide
      rw [h6] at hcond
      exact absurd hcond.2 (by decide)
    · have hcond : jsStartsWith ("data: " ++ payload) "data: " = true ∧
          6 < ("data: " ++ payload).length :=
        ⟨jsStartsWith_append _ _, hlen payload hp⟩
      unfold processStreamLine
      rw [if_pos hcond]
      simp only [jsDrop_append _ _ _ hdatalen]
      rcases hcase with hdone | hempty | hnone
      · rw [if_pos]
        rw [Bool.or_eq_true]
        exact Or.inl (beq_iff_eq.mpr hdone)
      · rw [if_pos]
        rw [Bool.or_eq_true]
        exact Or.inr (beq_iff_eq.mpr hempty)
      · by_cases hdone : jsTrim payload = "[DONE]"
        · rw [if_pos]
          rw [Bool.or_eq_true]
          exact Or.inl (beq_iff_eq.mpr hdone)
        · by_cases hempty : jsTrim payload = ""
          · rw [if_pos]
            rw [Bool.or_eq_true]
            exact Or.inr (beq_iff_eq.mpr hempty)
          · rw [hinner payload hdone hempty]
            simp only [Bool.false_eq_true, if_false, hnone]
  · intro sseData
    exact ⟨rfl, rfl⟩
  · intro transform sseData hall
    unfold processStreamData
    rw [map_self_of_eq _ _ hall, jsJoin_jsSplit]

/-- Concrete parse oracle for the C7 witness. -/
def witnessParse : String → Option Response :=
  fun s => if s == "X" then some ⟨none, none, none, none, none⟩ else none

/-- Concrete stringify oracle for the C7 witness. -/
def witnessStringify : Response → String :=
  fun _ => "Y"

/-- Witness for C7: a parseable data line is rewritten; a non-data line passes. -/
theorem sse_line_discipline_witness :
    processStreamLine witnessParse witnessStringify
        (modifyResponseForBedrock "aws") ("data: " ++ "X") = "data: " ++ "Y" ∧
    processStreamLine witnessParse witnessStringify
        (modifyResponseForBedrock "aws") "event: ping" = "event: ping" := by
  have h := sse_line_discipline witnessParse witnessStringify "aws"
  exact ⟨(h.1 "X" ⟨none, none, none, none, none⟩ (by decide) (by decide) (by decide)).1,
    h.2.1 _ "event: ping" (by decide)⟩

/-! ## C6: shaper idempotence — scrub stability -/

/-- An item whose `cache_control` carries no truthy `ttl` (the post-scrub state). -/
def itemScrubbed : ContentItem → Bool
  | .nullItem => true
  | .item _ _ cc =>
    match cc with
    | none => true
    | some c => !(strTruthy c.ttl)

/-- Post-scrub state of the `system` field. -/
def sysScrubbed : SystemField → Bool
  | .arr items => items.all itemScrubbed
  | _ => true

/-- Post-scrub state of one message. -/
def msgScrubbed : JsMessage → Bool
  | .nullMsg => true
  | .msg _ c =>
    match c with
    | .arr items => items.all itemScrubbed
    | _ => true

/-- Post-scrub state of the `messages` field. -/
def msgsScrubbed : Option (List JsMessage) → Bool
  | some msgs => msgs.all msgScrubbed
  | none => true

theorem scrubItem_scrubbed (it : ContentItem) : itemScrubbed (scrubItem it) = true := by
  cases it with
  | nullItem => rfl
  | item ty tx cc =>
    cases cc with
    | none => rfl
    | some c =>
      by_cases h : strTruthy c.ttl = true
      · simp only [scrubItem]
        rw [if_pos h]
        rfl
      · simp only [scrubItem]
        rw [if_neg h]
        simp only [itemScrubbed, Bool.not_eq_true']
        exact Bool.eq_false_iff.mpr h

theorem scrubItem_id (it : ContentItem) (h : itemScrubbed it = true) : scrubItem it = it := by
  cases it with
  | nullItem => rfl
  | item ty tx cc =>
    cases cc with
    | none => rfl
    | some c =>
      simp only [itemScrubbed, Bool.not_eq_true'] at h
      simp [scrubItem, h]

theorem scrubMessage_scrubbed (m : JsMessage) : msgScrubbed (scrubMessage m) = true := by
  cases m with
  | nullMsg => rfl
  | msg role c =>
    cases c with
    | absent => rfl
    | str s => rfl
    | other => rfl
    | arr items =>
      simp only [scrubMessage, msgScrubbed, List.all_eq_true]
      intro x hx
      rw [List.mem_map] at hx
      obtain ⟨y, _, rfl⟩ := hx
      exact scrubItem_scrubbed y

theorem scrubMessage_id (m : JsMessage) (h : msgScrubbed m = true) : scrubMessage m = m := by
  cases m with
  | nullMsg => rfl
  | msg role c =>
    cases c with
    | absent => rfl
    | str s => rfl
    | other => rfl
    | arr items =>
      simp only [msgScrubbed, List.all_eq_true] at h
      simp [scrubMessage, map_self_of_eq items scrubItem (fun x hx => scrubItem_id x (h x hx))]

theorem strip_system_scrubbed (b : RequestBody) :
    sysScrubbed (stripTtlFromCacheControl b).system = true := by
  unfold stripTtlFromCacheControl
  cases hsys : b.system with
  | arr items =>
    simp only [sysScrubbed, List.all_eq_true]
    intro x hx
    rw [List.mem_map] at hx
    obtain ⟨y, _, rfl⟩ := hx
    exact scrubItem_scrubbed y
  | str s => rfl
  | absent => rfl
  | other t => rfl

theorem strip_messages_scrubbed (b : RequestBody) :
    msgsScrubbed (stripTtlFromCacheControl b).messages = true := by
  unfold stripTtlFromCacheControl
  cases hm : b.messages with
  | none => rfl
  | some msgs =>
    simp only [msgsScrubbed, List.all_eq_true]
    intro x hx
    rw [List.mem_map] at hx
    obtain ⟨y, _, rfl⟩ := hx
    exact scrubMessage_scrubbed y

theorem strip_id (b : RequestBody) (h1 : sysScrubbed b.system = true)
    (h2 : msgsScrubbed b.messages = true) : stripTtlFromCacheControl b = b := by
  unfold stripTtlFromCacheControl
  have hsys : (match b.system with
               | .arr items => SystemField.arr (items.map scrubItem)
               | s => s) = b.system := by
    cases hs : b.system with
    | arr items =>
      rw [hs] at h1
      simp only [sysScrubbed, List.all_eq_true] at h1
      simp [map_self_of_eq items scrubItem (fun x hx => scrubItem_id x (h1 x hx))]
    | str s => rfl
    | absent => rfl
    | other t => rfl
  have hmsgs : (match b.messages with
                | some msgs => some (msgs.map scrubMessage)
                | none => none) = b.messages := by
    cases hm : b.messages with
    | none => rfl
    | some msgs =>
      rw [hm] at h2
      simp only [msgsScrubbed, List.all_eq_true] at h2
      simp [map_self_of_eq msgs scrubMessage (fun x hx => scrubMessage_id x (h2 x hx))]
  rw [hsys, hmsgs]

/-! ## C6: shaper idempotence — clamp stability and field preservation -/

theorem clamp_stable (pricing : String → Option Nat) (b c : RequestBody)
    (hm : c.model = b.model)
    (hmt : c.max_tokens = (validateAndLimitMaxTokens pricing b).max_tokens) :
    validateAndLimitMaxTokens pricing c = c := by
  cases hb : b.max_tokens with
  | none =>
    have hc : c.max_tokens = none := by
      simpa [validateAndLimitMaxTokens, hb] using hmt
    simp [validateAndLimitMaxTokens, hc]
  | some mt =>
    by_cases h0 : (mt == 0) = true
    · have hc : c.max_tokens = some mt := by
        simpa [validateAndLimitMaxTokens, hb, h0] using hmt
      simp [validateAndLimitMaxTokens, hc, h0]
    · cases hp : pricing (jsOrStr b.model "claude-sonnet-4-20250514") with
      | none =>
        have hc : c.max_tokens = some mt := by
          simpa [validateAndLimitMaxTokens, hb, h0, hp] using hmt
        simp [validateAndLimitMaxTokens, hc, h0, hm, hp]
      | some L =>
        by_cases hl0 : (L == 0) = true
        · have hc : c.max_tokens = some mt := by
            simpa [validateAndLimitMaxTokens, hb, h0, hp, hl0] using hmt
          simp [validateAndLimitMaxTokens, hc, h0, hm, hp, hl0]
        · by_cases hlt : L < mt
          · have hc : c.max_tokens = some L := by
              simpa [validateAndLimitMaxTokens, hb, h0, hp, hl0, hlt] using hmt
            simp [validateAndLimitMaxTokens, hc, hm, hp, hl0, lt_self_iff_false]
          · have hc : c.max_tokens = some mt := by
              simpa [validateAndLimitMaxTokens, hb, h0, hp, hl0, hlt] using hmt
            simp [validateAndLimitMaxTokens, hc, h0, hm, hp, hl0, hlt]

theorem norm_model (ua : Bool) (b : RequestBody) :
    (normalizeSystemPrompt ua b).model = b.model := by
  unfold normalizeSystemPrompt
  split
  · rfl
  · split <;> try rfl
    all_goals split <;> try rfl
    all_goals split <;> rfl

theorem norm_max (ua : Bool) (b : RequestBody) :
    (normalizeSystemPrompt ua b).max_tokens = b.max_tokens := by
  unfold normalizeSystemPrompt
  split
  · rfl
  · split <;> try rfl
    all_goals split <;> try rfl
    all_goals split <;> rfl

theorem norm_messages (ua : Bool) (b : RequestBody) :
    (normalizeSystemPrompt ua b).messages = b.messages := by
  unfold normalizeSystemPrompt
  split
  · rfl
  · split <;> try rfl
    all_goals split <;> try rfl
    all_goals split <;> rfl

theorem op_model (opPrompt : String) (b : RequestBody) :
    (appendOperatorPrompt opPrompt b).model = b.model := by
  unfold appendOperatorPrompt
  split <;> split <;> try rfl
  all_goals split <;> rfl

theorem op_max (opPrompt : String) (b : RequestBody) :
    (appendOperatorPrompt opPrompt b).max_tokens = b.max_tokens := by
  unfold appendOperatorPrompt
  split <;> split <;> try rfl
  all_goals split <;> rfl

theorem op_messages (opPrompt : String) (b : RequestBody) :
    (appendOperatorPrompt opPrompt b).messages = b.messages := by
  unfold appendOperatorPrompt
  split <;> split <;> try rfl
  all_goals split <;> rfl

/-! ## C6: shaper idempotence — the normalized-system invariant -/

/-- The `system` field is an array whose first element is a Claude-Code text block
(type `text`, text exactly S) — the state every shaped body is left in. -/
def sysHeadCC (b : RequestBody) : Prop :=
  ∃ cc0 rest, b.system =
    .arr (ContentItem.item (some "text") (some claudeCodeSystemPrompt) cc0 :: rest)

theorem hasCC_headCC (b : RequestBody) (h : hasClaudeCodeSystemPrompt b = true) :
    sysHeadCC b := by
  unfold hasClaudeCodeSystemPrompt at h
  cases hsys : b.system with
  | str s => rw [hsys] at h; simp at h
  | absent => rw [hsys] at h; simp at h
  | other t => rw [hsys] at h; simp at h
  | arr items =>
    rw [hsys] at h
    cases items with
    | nil => simp at h
    | cons first rest =>
      cases first with
      | nullItem => simp at h
      | item ty tx cc0 =>
        simp only [Bool.and_eq_true, beq_iff_eq] at h
        obtain ⟨⟨hty, _⟩, htx⟩ := h
        exact ⟨cc0, rest, by rw [hsys, hty, htx]⟩

theorem firstCC_headCC (b : RequestBody) (items : List ContentItem)
    (hsys : b.system = .arr items) (h : isFirstItemClaudeCode items = true) :
    sysHeadCC b := by
  cases items with
  | nil => simp [isFirstItemClaudeCode] at h
  | cons first rest =>
    cases first with
    | nullItem => simp [isFirstItemClaudeCode] at h
    | item ty tx cc0 =>
      simp only [isFirstItemClaudeCode, Bool.and_eq_true, beq_iff_eq] at h
      exact ⟨cc0, rest, by rw [hsys, h.1, h.2]⟩

theorem norm_headCC (ua : Bool) (b : RequestBody) :
    sysHeadCC (normalizeSystemPrompt ua b) := by
  unfold normalizeSystemPrompt
  by_cases hg : isRealClaudeCodeRequest ua b = true
  · rw [if_pos hg]
    unfold isRealClaudeCodeRequest at hg
    rw [Bool.and_eq_true] at hg
    exact hasCC_headCC b hg.2
  · rw [if_neg hg]
    cases hsys : b.system with
    | str s =>
      dsimp only
      by_cases h0 : (s == "") = true
      · rw [if_pos h0]
        exact ⟨some ⟨some "ephemeral", none⟩, [], rfl⟩
      · rw [if_neg h0]
        by_cases h1 : (jsTrim s == claudeCodeSystemPrompt) = true
        · rw [if_pos h1]
          exact ⟨some ⟨some "ephemeral", none⟩, [], rfl⟩
        · rw [if_neg h1]
          exact ⟨some ⟨some "ephemeral", none⟩, [.item (some "text") (some s) none], rfl⟩
    | arr items =>
      dsimp only
      by_cases hf : isFirstItemClaudeCode items = true
      · rw [if_pos hf]
        exact firstCC_headCC b items hsys hf
      · rw [if_neg hf]
        exact ⟨some ⟨some "ephemeral", none⟩,
          items.filter (fun it => !(itemIsClaudeCodeText it)), rfl⟩
    | absent => exact ⟨some ⟨some "ephemeral", none⟩, [], rfl⟩
    | other t => exact ⟨some ⟨some "ephemeral", none⟩, [], rfl⟩

theorem norm_id_of_headCC (ua : Bool) (b : RequestBody) (h : sysHeadCC b) :
    normalizeSystemPrompt ua b = b := by
  obtain ⟨cc0, rest, hsys⟩ := h
  unfold normalizeSystemPrompt
  by_cases hg : isRealClaudeCodeRequest ua b = true
  · rw [if_pos hg]
  · rw [if_neg hg, hsys]
    dsimp only
    have hf : isFirstItemClaudeCode
        (ContentItem.item (some "text") (some claudeCodeSystemPrompt) cc0 :: rest) = true := by
      simp [isFirstItemClaudeCode]
    rw [if_pos hf]

theorem ccPrompt_hasValidText : itemHasValidText ccPromptItem = true := by decide

theorem op_preserves_headCC (opPrompt : String) (b : RequestBody) (h : sysHeadCC b) :
    sysHeadCC (appendOperatorPrompt opPrompt b) := by
  obtain ⟨cc0, rest, hsys⟩ := h
  unfold appendOperatorPrompt
  by_cases hact : (!(opPrompt == "") && !(jsTrim opPrompt == "")) = true
  · rw [if_pos hact, hsys]
    dsimp only
    by_cases hany : (ContentItem.item (some "text") (some claudeCodeSystemPrompt) cc0 ::
        rest).any (itemTextEquals opPrompt) = true
    · rw [if_pos hany]
      exact ⟨cc0, rest, hsys⟩
    · rw [if_neg hany]
      exact ⟨cc0, rest ++ [.item (some "text") (some opPrompt) none], by simp⟩
  · rw [if_neg hact, hsys]
    dsimp only
    have hany : (ContentItem.item (some "text") (some claudeCodeSystemPrompt) cc0 ::
        rest).any itemHasValidText = true := by
      rw [List.any_cons]
      have : itemHasValidText
          (ContentItem.item (some "text") (some claudeCodeSystemPrompt) cc0) = true := by
        simp only [itemHasValidText]
        decide
      simp [this]
    rw [if_pos hany]
    exact ⟨cc0, rest, hsys⟩

theorem op_idem (opPrompt : String) (b : RequestBody) :
    appendOperatorPrompt opPrompt (appendOperatorPrompt opPrompt b) =
      appendOperatorPrompt opPrompt b := by
  by_cases hact : (!(opPrompt == "") && !(jsTrim opPrompt == "")) = true
  · have hop : opPrompt ≠ "" := by
      rw [Bool.and_eq_true, Bool.not_eq_true', beq_eq_false_iff_ne] at hact
      exact hact.1
    have hopitem : itemTextEquals opPrompt (.item (some "text") (some opPrompt) none) = true := by
      simp [itemTextEquals, strTruthy, hop]
    cases hsys : b.system with
    | arr items =>
      by_cases hany : items.any (itemTextEquals opPrompt) = true
      · have hfix : appendOperatorPrompt opPrompt b = b := by
          unfold appendOperatorPrompt
          rw [if_pos hact, hsys]
          dsimp only
          rw [if_pos hany]
        rw [hfix, hfix]
      · have hstep : appendOperatorPrompt opPrompt b =
            { b with system := .arr (items ++ [.item (some "text") (some opPrompt) none]) } := by
          unfold appendOperatorPrompt
          rw [if_pos hact, hsys]
          dsimp only
          rw [if_neg hany]
        rw [hstep]
        unfold appendOperatorPrompt
        rw [if_pos hact]
        have hany2 : ((items ++ [ContentItem.item (some "text") (some opPrompt) none]).any
            (itemTextEquals opPrompt)) = true := by
          rw [List.any_append]
          simp [hopitem]
        simp only [hany2, if_true]
    | str s =>
      have hstep : appendOperatorPrompt opPrompt b =
          { b with system := .arr [.item (some "text") (some opPrompt) none] } := by
        unfold appendOperatorPrompt
        rw [if_pos hact, hsys]
      rw [hstep]
      unfold appendOperatorPrompt
      rw [if_pos hact]
      simp only [List.any_cons, List.any_nil, hopitem, Bool.or_false, if_true]
    | absent =>
      have hstep : appendOperatorPrompt opPrompt b =
          { b with system := .arr [.item (some "text") (some opPrompt) none] } := by
        unfold appendOperatorPrompt
        rw [if_pos hact, hsys]
      rw [hstep]
      unfold appendOperatorPrompt
      rw [if_pos hact]
      simp only [List.any_cons, List.any_nil, hopitem, Bool.or_false, if_true]
    | other t =>
      have hstep : appendOperatorPrompt opPrompt b =
          { b with system := .arr [.item (some "text") (some opPrompt) none] } := by
        unfold appendOperatorPrompt
        rw [if_pos hact, hsys]
      rw [hstep]
      unfold appendOperatorPrompt
      rw [if_pos hact]
      simp only [List.any_cons, List.any_nil, hopitem, Bool.or_false, if_true]
  · cases hsys : b.system with
    | arr items =>
      by_cases hany : items.any itemHasValidText = true
      · have hfix : appendOperatorPrompt opPrompt b = b := by
          unfold appendOperatorPrompt
          rw [if_neg hact, hsys]
          dsimp only
          rw [if_pos hany]
        rw [hfix, hfix]
      · have hstep : appendOperatorPrompt opPrompt b = { b with system := .absent } := by
          unfold appendOperatorPrompt
          rw [if_neg hact, hsys]
          dsimp only
          rw [if_neg hany]
        rw [hstep]
        unfold appendOperatorPrompt
        rw [if_neg hact]
    | str s =>
      have hfix : appendOperatorPrompt opPrompt b = b := by
        unfold appendOperatorPrompt
        rw [if_neg hact, hsys]
      rw [hfix, hfix]
    | absent =>
      have hfix : appendOperatorPrompt opPrompt b = b := by
        unfold appendOperatorPrompt
        rw [if_neg hact, hsys]
      rw [hfix, hfix]
    | other t =>
      have hfix : appendOperatorPrompt opPrompt b = b := by
        unfold appendOperatorPrompt
        rw [if_neg hact, hsys]
      rw [hfix, hfix]

/-! ## C6: shaper idempotence — assembly -/

theorem strip_model (b : RequestBody) : (stripTtlFromCacheControl b).model = b.model :=
  rfl

theorem strip_max (b : RequestBody) :
    (stripTtlFromCacheControl b).max_tokens = b.max_tokens :=
  rfl

theorem all_filter_of_all {α : Type} (l : List α) (p q : α → Bool) (h : l.all q = true) :
    (l.filter p).all q = true := by
  rw [List.all_eq_true] at h ⊢
  intro x hx
  exact h x (List.mem_of_mem_filter hx)

theorem ccPrompt_scrubbed : itemScrubbed ccPromptItem = true := by decide

theorem norm_preserves_scrubbed (ua : Bool) (b : RequestBody)
    (h : sysScrubbed b.system = true) :
    sysScrubbed (normalizeSystemPrompt ua b).system = true := by
  unfold normalizeSystemPrompt
  by_cases hg : isRealClaudeCodeRequest ua b = true
  · rw [if_pos hg]
    exact h
  · rw [if_neg hg]
    cases hsys : b.system with
    | str s =>
      dsimp only
      split <;> (try split) <;>
        simp [sysScrubbed, List.all_cons, ccPrompt_scrubbed, itemScrubbed] <;>
        decide
    | arr items =>
      dsimp only
      rw [hsys] at h
      simp only [sysScrubbed] at h
      by_cases hf : isFirstItemClaudeCode items = true
      · rw [if_pos hf, hsys]
        simpa [sysScrubbed] using h
      · rw [if_neg hf]
        simp only [sysScrubbed, List.all_cons]
        rw [ccPrompt_scrubbed, all_filter_of_all items _ _ h]
        rfl
    | absent =>
      simp [sysScrubbed, List.all_cons, ccPrompt_scrubbed]
    | other t =>
      simp [sysScrubbed, List.all_cons, ccPrompt_scrubbed]

theorem op_preserves_scrubbed (opPrompt : String) (b : RequestBody)
    (h : sysScrubbed b.system = true) :
    sysScrubbed (appendOperatorPrompt opPrompt b).system = true := by
  unfold appendOperatorPrompt
  by_cases hact : (!(opPrompt == "") && !(jsTrim opPrompt == "")) = true
  · rw [if_pos hact]
    cases hsys : b.system with
    | arr items =>
      dsimp only
      rw [hsys] at h
      simp only [sysScrubbed] at h
      by_cases hany : items.any (itemTextEquals opPrompt) = true
      · rw [if_pos hany, hsys]
        simpa [sysScrubbed] using h
      · rw [if_neg hany]
        simp only [sysScrubbed, List.all_append, List.all_cons, List.all_nil]
        rw [h]
        rfl
    | str s => simp [sysScrubbed, List.all_cons, itemScrubbed]
    | absent => simp [sysScrubbed, List.all_cons, itemScrubbed]
    | other t => simp [sysScrubbed, List.all_cons, itemScrubbed]
  · rw [if_neg hact]
    cases hsys : b.system with
    | arr items =>
      dsimp only
      split
      · exact h
      · rfl
    | str s =>
      dsimp only
      exact h
    | absent =>
      dsimp only
      exact h
    | other t =>
      dsimp only
      exact h

/-- C6: applying the request shaper (max_tokens clamp, cache_control ttl scrub,
system-prompt normalization, operator-prompt append) twice, with the same pricing
table, operator prompt and client headers, yields exactly the result of applying it
once. -/
theorem shaper_idempotent (pricing : String → Option Nat) (opPrompt : String)
    (uaMatches : Bool) (body : RequestBody) :
    processRequestBodyCore pricing opPrompt uaMatches
        (processRequestBodyCore pricing opPrompt uaMatches body) =
      processRequestBodyCore pricing opPrompt uaMatches body := by
  have hmodel : (processRequestBodyCore pricing opPrompt uaMatches body).model =
      body.model := by
    unfold processRequestBodyCore
    rw [op_model, norm_model, strip_model, clamp_model]
  have hmax : (processRequestBodyCore pricing opPrompt uaMatches body).max_tokens =
      (validateAndLimitMaxTokens pricing body).max_tokens := by
    unfold processRequestBodyCore
    rw [op_max, norm_max, strip_max]
  have h1 : validateAndLimitMaxTokens pricing
      (processRequestBodyCore pricing opPrompt uaMatches body) =
      processRequestBodyCore pricing opPrompt uaMatches body :=
    clamp_stable pricing body _ hmodel hmax
  have hsys_scr : sysScrubbed (processRequestBodyCore pricing opPrompt uaMatches body).system =
      true := by
    unfold processRequestBodyCore
    exact op_preserves_scrubbed _ _
      (norm_preserves_scrubbed _ _ (strip_system_scrubbed _))
  have hmsg_scr : msgsScrubbed
      (processRequestBodyCore pricing opPrompt uaMatches body).messages = true := by
    unfold processRequestBodyCore
    rw [op_messages, norm_messages]
    exact strip_messages_scrubbed _
  have h2 : stripTtlFromCacheControl (processRequestBodyCore pricing opPrompt uaMatches body) =
      processRequestBodyCore pricing opPrompt uaMatches body :=
    strip_id _ hsys_scr hmsg_scr
  have hhead : sysHeadCC (processRequestBodyCore pricing opPrompt uaMatches body) := by
    unfold processRequestBodyCore
    exact op_preserves_headCC _ _ (norm_headCC _ _)
  have h3 : normalizeSystemPrompt uaMatches
      (processRequestBodyCore pricing opPrompt uaMatches body) =
      processRequestBodyCore pricing opPrompt uaMatches body :=
    norm_id_of_headCC _ _ hhead
  have h4 : appendOperatorPrompt opPrompt
      (processRequestBodyCore pricing opPrompt uaMatches body) =
      processRequestBodyCore pricing opPrompt uaMatches body := by
    unfold processRequestBodyCore
    exact op_idem opPrompt _
  calc processRequestBodyCore pricing opPrompt uaMatches
        (processRequestBodyCore pricing opPrompt uaMatches body)
      = appendOperatorPrompt opPrompt (normalizeSystemPrompt uaMatches
          (stripTtlFromCacheControl (validateAndLimitMaxTokens pricing
            (processRequestBodyCore pricing opPrompt uaMatches body)))) := rfl
    _ = appendOperatorPrompt opPrompt (normalizeSystemPrompt uaMatches
          (stripTtlFromCacheControl (processRequestBodyCore pricing opPrompt uaMatches body))) := by
          rw [h1]
    _ = appendOperatorPrompt opPrompt (normalizeSystemPrompt uaMatches
          (processRequestBodyCore pricing opPrompt uaMatches body)) := by rw [h2]
    _ = appendOperatorPrompt opPrompt
          (processRequestBodyCore pricing opPrompt uaMatches body) := by rw [h3]
    _ = processRequestBodyCore pricing opPrompt uaMatches body := h4

end ClaudeRelay
